import Mathlib

/-
  Shallow embedding of the replication coordination logic of
  tompaana/lazy-storage-replicator (src/storage-client.ts,
  src/azure-blob-storage-client.ts, src/aws-s3-client.ts,
  src/multi-storage-client.ts).

  Remote backends are modelled by a `World` record that fixes the outcome of
  every primitive SDK call (Azure `getBlobProperties`, AWS `headObject`,
  uploads, downloads, listings, deletes).  A promise that can reject is
  embedded as `Except JsError`; `await p` is an explicit match that
  propagates `.error`.  Methods whose observable behaviour includes which
  backend operations were attempted additionally return a `List AdapterCall`
  trace, in the order the source awaits them.
-/

set_option linter.unusedVariables false

namespace LazyStorageReplicator

/-- The constant `ERROR_CODE_NOT_FOUND` from storage-client.ts. -/
def ERROR_CODE_NOT_FOUND : String := "NotFound"

/-- A JavaScript error value: either a `TypeError` raised by dereferencing
`null`/`undefined`, or an ordinary `Error`/SDK error with a message. -/
inductive JsError where
  | typeError (msg : String)
  | error (msg : String)
deriving DecidableEq, Repr

/-- The JavaScript values that the coordinator methods can produce in their
`result` variable: `null`, a string (used for `ERROR_CODE_NOT_FOUND`), an
object payload, or a caught error object. -/
inductive JsValue where
  | null
  | strVal (s : String)
  | payload (p : String)
  | errVal (e : JsError)
deriving DecidableEq, Repr

/-- A JavaScript object reference field, which can hold `null`, `undefined`
or an actual object. -/
inductive JsRef (α : Type) where
  | jsNull
  | jsUndefined
  | value (a : α)
deriving DecidableEq, Repr

/-- An AWS SDK error as consumed by `AwsS3Client.fileExists`: only its
`code` property is inspected. -/
structure AwsError where
  code : String
deriving DecidableEq, Repr

/-- Outcome of Azure `BlobService.getBlobProperties` as seen by its callback
`(error, properties, status)`: either a non-null `error`, or no error
together with the `status.isSuccessful` flag. -/
inductive AzureCallbackResult where
  | err (e : String)
  | status (isSuccessful : Bool)
deriving DecidableEq, Repr

/-- Outcome of AWS `S3.headObject` as seen by its callback
`(error, metadata)`: either a non-null `error` or a successful head. -/
inductive AwsHeadResult where
  | err (e : AwsError)
  | ok
deriving DecidableEq, Repr

/-- The remote state and fault model: the outcome of every primitive backend
SDK call, keyed by the addressing scope (container/bucket name) and the
blob/key arguments the adapter passes to the SDK. -/
structure World where
  azureGetBlobProperties : String → String → AzureCallbackResult
  awsHeadObject : String → String → AwsHeadResult
  azureListBlobNames : String → String → Except JsError (List String)
  awsListObjectKeys : String → String → Except JsError (List String)
  awsGetObject : String → String → Except JsError String
  azureGetBlobToLocalFile : String → String → String → Except JsError Unit
  awsGetObjectToDisk : String → String → String → Except JsError Unit
  azureCreateBlockBlobFromLocalFile : String → String → String → Except JsError Unit
  awsUpload : String → String → String → Except JsError Unit
  azureDeleteBlob : String → String → Except JsError Unit
  awsDeleteMany : String → List String → Except JsError Unit

/-- The configuration of an initialized `MultiStorageClient`: the default
container name of its Azure adapter and the default bucket name of its AWS
adapter (`""` models an empty/absent default, which is falsy in JS). -/
structure Config where
  defaultContainerName : String
  defaultBucketName : String
deriving DecidableEq, Repr

/- `StorageType` enum from multi-storage-client.ts, kept as the numeric
bit-set the source manipulates with `|` and `&`. -/
namespace StorageType

def Undefined : Nat := 0

def AzureBlobStorage : Nat := 1

def AwsS3 : Nat := 2

def Both : Nat := 3

end StorageType

/-- JS `a || b` where `a` is an optional string argument: `undefined`
(omitted) and the empty string are falsy. -/
def jsOrOpt (a : Option String) (b : String) : String :=
  match a with
  | none => b
  | some s => if s = "" then b else s

/-- JS `a || b` on two strings: `a` unless it is empty. -/
def jsOrStr (a b : String) : String :=
  if a = "" then b else a

/-- The line `containerName = containerName || this.azureBlobStorageClient.getDefaultContainerName();`
occurring at the top of every coordinator method. -/
def resolveContainerName (cfg : Config) (containerName : Option String) : String :=
  jsOrOpt containerName cfg.defaultContainerName

/-- The line `bucketName = bucketName || this.awsS3Client.getDefaultBucketName() || containerName;`:
the `containerName` it falls back to is the already-resolved container name. -/
def resolveBucketName (cfg : Config) (containerName bucketName : Option String) : String :=
  jsOrOpt bucketName (jsOrStr cfg.defaultBucketName (resolveContainerName cfg containerName))

namespace AzureBlobStorageClient

/-- `AzureBlobStorageClient.fileExists`: wraps `getBlobProperties` in a
promise that only ever resolves; it resolves `false` whenever the callback
receives an error (of any kind) or an unsuccessful status, `true` otherwise. -/
def fileExists (w : World) (blobName containerName : String) : Except JsError Bool :=
  .ok (match w.azureGetBlobProperties containerName blobName with
       | .err _ => false
       | .status isSuccessful => isSuccessful)

/-- `AzureBlobStorageClient.downloadFile`: the method body is
`throw new Error("Method not implemented")`. -/
def downloadFile (blobName containerName : String) : Except JsError String :=
  .error (.error "Method not implemented")

/-- `AzureBlobStorageClient.downloadFileToDisk` delegating to
`getBlobToLocalFile`. -/
def downloadFileToDisk (w : World) (blobName localFilePath containerName : String) :
    Except JsError Unit :=
  w.azureGetBlobToLocalFile containerName blobName localFilePath

/-- `AzureBlobStorageClient.uploadFile` delegating to
`createBlockBlobFromLocalFile`. -/
def uploadFile (w : World) (localFilePath blobName containerName : String) :
    Except JsError Unit :=
  w.azureCreateBlockBlobFromLocalFile containerName blobName localFilePath

/-- `AzureBlobStorageClient.listFileNamesWithPrefix`: lists blobs and plucks
their `name` property; rejects when the listing rejects. -/
def listBlobNames (w : World) (pfx containerName : String) :
    Except JsError (List String) :=
  w.azureListBlobNames containerName pfx

/-- `AzureBlobStorageClient.deleteFiles`: maps
`this.azureBlobService.deleteBlob(containerName, blobName, function() {})`
over the blob names under `Promise.all`.  `deleteBlob` called with a
callback returns `void`, so `Promise.all` receives an array of `undefined`
and resolves immediately; each delete's outcome is delivered to the
discarded no-op callback.  The returned promise therefore always resolves
and never surfaces a delete failure. -/
def deleteFiles (w : World) (blobNames : List String) (containerName : String) :
    Except JsError Unit :=
  let _ := blobNames.map (fun blobName => w.azureDeleteBlob containerName blobName)
  .ok ()

/-- `AzureBlobStorageClient.isInitialized`:
`return (this.azureBlobService !== undefined);` where the field declaration
is `protected azureBlobService: azure.BlobService = null;`. -/
def isInitialized (azureBlobService : JsRef Unit) : Bool :=
  match azureBlobService with
  | .jsUndefined => false
  | _ => true

end AzureBlobStorageClient

namespace AwsS3Client

/-- `AwsS3Client.fileExists`: wraps `headObject` in a promise that only ever
resolves; it resolves `false` exactly when the callback error is non-null
with `error.code === ERROR_CODE_NOT_FOUND`, and `true` otherwise — including
when the error is a transport/auth failure. -/
def fileExists (w : World) (fileKey bucketName : String) : Except JsError Bool :=
  .ok (match w.awsHeadObject bucketName fileKey with
       | .err e => if e.code = ERROR_CODE_NOT_FOUND then false else true
       | .ok => true)

/-- `AwsS3Client.downloadFile` delegating to `getObject(...).promise()`. -/
def downloadFile (w : World) (fileKey bucketName : String) : Except JsError String :=
  w.awsGetObject bucketName fileKey

/-- `AwsS3Client.downloadFileToDisk` streaming `getObject` to the local path. -/
def downloadFileToDisk (w : World) (fileKey localFilePath bucketName : String) :
    Except JsError Unit :=
  w.awsGetObjectToDisk bucketName fileKey localFilePath

/-- `AwsS3Client.uploadFile` delegating to `s3Client.upload`. -/
def uploadFile (w : World) (localFilePath fileKey bucketName : String) :
    Except JsError Unit :=
  w.awsUpload bucketName fileKey localFilePath

/-- `AwsS3Client.listFileNamesWithPrefix`: lists objects and plucks their
`Key` property; rejects when the listing rejects. -/
def listObjectKeys (w : World) (pfx bucketName : String) :
    Except JsError (List String) :=
  w.awsListObjectKeys bucketName pfx

/-- `AwsS3Client.deleteFiles` delegating to `deleteObjects(...).promise()`. -/
def deleteFiles (w : World) (fileKeys : List String) (bucketName : String) :
    Except JsError Unit :=
  w.awsDeleteMany bucketName fileKeys

/-- `AwsS3Client.isInitialized`:
`return (this.s3Client !== undefined);` where the field declaration is
`protected s3Client: S3 = null;`. -/
def isInitialized (s3Client : JsRef Unit) : Bool :=
  match s3Client with
  | .jsUndefined => false
  | _ => true

end AwsS3Client

/-- One attempted backend operation, recorded in the order the coordinator
awaits them.  Argument order follows the corresponding adapter method
signature in the source. -/
inductive AdapterCall where
  | azureDownloadFileToDisk (blobName localFilePath containerName : String)
  | awsDownloadFileToDisk (fileKey localFilePath bucketName : String)
  | azureUploadFile (localFilePath blobName containerName : String)
  | awsUploadFile (localFilePath fileKey bucketName : String)
  | azureDeleteFiles (blobNames : List String) (containerName : String)
  | awsDeleteFiles (fileKeys : List String) (bucketName : String)
deriving DecidableEq, Repr

/-- JS `storageToUse = storageToUse || (StorageType.AzureBlobStorage | StorageType.AwsS3);`
from `uploadFileToStorage`: an omitted argument and the falsy number `0`
(`StorageType.Undefined`) both default to `Both`. -/
def effectiveStorageToUse (storageToUse : Option Nat) : Nat :=
  match storageToUse with
  | none => StorageType.AzureBlobStorage ||| StorageType.AwsS3
  | some s => if s = 0 then StorageType.AzureBlobStorage ||| StorageType.AwsS3 else s

namespace MultiStorageClient

/-- `MultiStorageClient.isInitialized`:
`return (this.azureBlobStorageClient.isInitialized() && this.awsS3Client.isInitialized());`
where both fields are declared `= null`.  Dereferencing a `null`/`undefined`
field raises a `TypeError`; `&&` short-circuits. -/
def isInitialized (azureBlobStorageClient : JsRef (JsRef Unit))
    (awsS3Client : JsRef (JsRef Unit)) : Except JsError Bool :=
  match azureBlobStorageClient with
  | .value a =>
    if AzureBlobStorageClient.isInitialized a then
      match awsS3Client with
      | .value b => .ok (AwsS3Client.isInitialized b)
      | _ => .error (.typeError "Cannot read property of null")
    else
      .ok false
  | _ => .error (.typeError "Cannot read property of null")

/-- `MultiStorageClient.storagesContainingFile`: resolves the two scope
names, awaits both adapters' `fileExists` (azure first), and folds the two
booleans into the `StorageType` bit-set with `|=`. -/
def storagesContainingFile (cfg : Config) (w : World) (storageFilePath : String)
    (containerName bucketName : Option String) : Except JsError Nat :=
  let cn := resolveContainerName cfg containerName
  let bn := resolveBucketName cfg containerName bucketName
  match AzureBlobStorageClient.fileExists w storageFilePath cn,
        AwsS3Client.fileExists w storageFilePath bn with
  | .error e, _ => .error e
  | _, .error e => .error e
  | .ok fileExistsBlob, .ok fileExistsAws =>
    let result := StorageType.Undefined
    let result := if fileExistsBlob then result ||| StorageType.AzureBlobStorage else result
    let result := if fileExistsAws then result ||| StorageType.AwsS3 else result
    .ok result

/-- `MultiStorageClient.fileExists`:
`return (await this.storagesContainingFile(...) != StorageType.Undefined);`. -/
def fileExists (cfg : Config) (w : World) (storageFilePath : String)
    (containerName bucketName : Option String) : Except JsError Bool :=
  match storagesContainingFile cfg w storageFilePath containerName bucketName with
  | .error e => .error e
  | .ok s => .ok (decide (s ≠ StorageType.Undefined))

/-- `MultiStorageClient.listFileNamesWithPrefix`: starts from the empty
array, overwrites it with the Azure listing inside a `try` whose `catch`
only logs, then evaluates `fileNames.concat(await aws...)` WITHOUT using the
concatenation result (`Array.concat` does not mutate), and returns
`fileNames`.  The AWS await is outside any `try`, so an AWS listing
rejection rejects the whole call. -/
def listFileNamesWithPrefix (cfg : Config) (w : World) (pfx : String)
    (containerName bucketName : Option String) : Except JsError (List String) :=
  let cn := resolveContainerName cfg containerName
  let bn := resolveBucketName cfg containerName bucketName
  let fileNames : List String := []
  let fileNames :=
    match AzureBlobStorageClient.listBlobNames w pfx cn with
    | .ok names => names
    | .error _ => fileNames
  match AwsS3Client.listObjectKeys w pfx bn with
  | .error e => .error e
  | .ok awsNames =>
    let _ := fileNames ++ awsNames
    .ok fileNames

/-- `MultiStorageClient.downloadFile`: resolves presence first (outside the
`try`), then inside the `try` returns `ERROR_CODE_NOT_FOUND` when the set is
empty, else awaits the Azure download when the Azure bit is set, else the
AWS download; a thrown error is caught into `result`. -/
def downloadFile (cfg : Config) (w : World) (storageFilePath : String)
    (containerName bucketName : Option String) : Except JsError JsValue :=
  let cn := resolveContainerName cfg containerName
  let bn := resolveBucketName cfg containerName bucketName
  match storagesContainingFile cfg w storageFilePath containerName bucketName with
  | .error e => .error e
  | .ok s =>
    let result : JsValue := .null
    let result :=
      if s = StorageType.Undefined then
        .strVal ERROR_CODE_NOT_FOUND
      else if s &&& StorageType.AzureBlobStorage ≠ 0 then
        match AzureBlobStorageClient.downloadFile storageFilePath cn with
        | .ok p => JsValue.payload p
        | .error e => .errVal e
      else if s &&& StorageType.AwsS3 ≠ 0 then
        match AwsS3Client.downloadFile w storageFilePath bn with
        | .ok p => JsValue.payload p
        | .error e => .errVal e
      else result
    .ok result

/-- `MultiStorageClient.downloadFileToDisk`: same presence resolution as
`downloadFile` but the chosen backend downloads to the local path; `result`
stays `null` on success.  The returned trace records the attempted
downloads. -/
def downloadFileToDisk (cfg : Config) (w : World)
    (storageFilePath localFilePath : String) (containerName bucketName : Option String) :
    Except JsError (JsValue × List AdapterCall) :=
  let cn := resolveContainerName cfg containerName
  let bn := resolveBucketName cfg containerName bucketName
  match storagesContainingFile cfg w storageFilePath containerName bucketName with
  | .error e => .error e
  | .ok s =>
    if s = StorageType.Undefined then
      .ok (.strVal ERROR_CODE_NOT_FOUND, [])
    else if s &&& StorageType.AzureBlobStorage ≠ 0 then
      match AzureBlobStorageClient.downloadFileToDisk w storageFilePath localFilePath cn with
      | .ok _ => .ok (.null, [.azureDownloadFileToDisk storageFilePath localFilePath cn])
      | .error e => .ok (.errVal e, [.azureDownloadFileToDisk storageFilePath localFilePath cn])
    else if s &&& StorageType.AwsS3 ≠ 0 then
      match AwsS3Client.downloadFileToDisk w storageFilePath localFilePath bn with
      | .ok _ => .ok (.null, [.awsDownloadFileToDisk storageFilePath localFilePath bn])
      | .error e => .ok (.errVal e, [.awsDownloadFileToDisk storageFilePath localFilePath bn])
    else
      .ok (.null, [])

/-- `MultiStorageClient.downloadFileToDiskAndReplicateIfNecessary`: resolves
presence, then branches on strict equality with `Undefined`, `Both`,
`AzureBlobStorage` and `AwsS3`; a single-backend hit downloads from that
backend and then uploads the same local file to the other backend under the
same storage path; the first thrown error is caught into `result` and ends
the branch.  The trace records the attempted downloads/uploads in order. -/
def downloadFileToDiskAndReplicateIfNecessary (cfg : Config) (w : World)
    (storageFilePath localFilePath : String) (containerName bucketName : Option String) :
    Except JsError (JsValue × List AdapterCall) :=
  let cn := resolveContainerName cfg containerName
  let bn := resolveBucketName cfg containerName bucketName
  match storagesContainingFile cfg w storageFilePath containerName bucketName with
  | .error e => .error e
  | .ok s =>
    if s = StorageType.Undefined then
      .ok (.strVal ERROR_CODE_NOT_FOUND, [])
    else if s = (StorageType.AzureBlobStorage ||| StorageType.AwsS3) then
      match AzureBlobStorageClient.downloadFileToDisk w storageFilePath localFilePath cn with
      | .ok _ => .ok (.null, [.azureDownloadFileToDisk storageFilePath localFilePath cn])
      | .error e => .ok (.errVal e, [.azureDownloadFileToDisk storageFilePath localFilePath cn])
    else if s = StorageType.AzureBlobStorage then
      match AzureBlobStorageClient.downloadFileToDisk w storageFilePath localFilePath cn with
      | .error e => .ok (.errVal e, [.azureDownloadFileToDisk storageFilePath localFilePath cn])
      | .ok _ =>
        match AwsS3Client.uploadFile w localFilePath storageFilePath bn with
        | .ok _ => .ok (.null, [.azureDownloadFileToDisk storageFilePath localFilePath cn,
                                .awsUploadFile localFilePath storageFilePath bn])
        | .error e => .ok (.errVal e, [.azureDownloadFileToDisk storageFilePath localFilePath cn,
                                       .awsUploadFile localFilePath storageFilePath bn])
    else if s = StorageType.AwsS3 then
      match AwsS3Client.downloadFileToDisk w storageFilePath localFilePath bn with
      | .error e => .ok (.errVal e, [.awsDownloadFileToDisk storageFilePath localFilePath bn])
      | .ok _ =>
        match AzureBlobStorageClient.uploadFile w localFilePath storageFilePath cn with
        | .ok _ => .ok (.null, [.awsDownloadFileToDisk storageFilePath localFilePath bn,
                                .azureUploadFile localFilePath storageFilePath cn])
        | .error e => .ok (.errVal e, [.awsDownloadFileToDisk storageFilePath localFilePath bn,
                                       .azureUploadFile localFilePath storageFilePath cn])
    else
      .ok (.null, [])

/-- `MultiStorageClient.uploadFileToStorage`: defaults `storageToUse`, kicks
off the uploads for the targeted backends, then awaits each in its own
`try`/`catch` that only logs, OR-ing the backend's bit into the result on
success.  The promise only ever resolves with the success set. -/
def uploadFileToStorage (cfg : Config) (w : World)
    (localFilePath storageFilePath : String) (storageToUse : Option Nat)
    (containerName bucketName : Option String) : Nat :=
  let stu := effectiveStorageToUse storageToUse
  let cn := resolveContainerName cfg containerName
  let bn := resolveBucketName cfg containerName bucketName
  let storagesWhereFileWasUploaded := StorageType.Undefined
  let storagesWhereFileWasUploaded :=
    if stu &&& StorageType.AzureBlobStorage ≠ 0 then
      match AzureBlobStorageClient.uploadFile w localFilePath storageFilePath cn with
      | .ok _ => storagesWhereFileWasUploaded ||| StorageType.AzureBlobStorage
      | .error _ => storagesWhereFileWasUploaded
    else storagesWhereFileWasUploaded
  let storagesWhereFileWasUploaded :=
    if stu &&& StorageType.AwsS3 ≠ 0 then
      match AwsS3Client.uploadFile w localFilePath storageFilePath bn with
      | .ok _ => storagesWhereFileWasUploaded ||| StorageType.AwsS3
      | .error _ => storagesWhereFileWasUploaded
    else storagesWhereFileWasUploaded
  storagesWhereFileWasUploaded

/-- `MultiStorageClient.deleteFiles`: creates both adapter delete promises
up front (so both are always issued), then awaits each inside its own
`try`/`catch` that overwrites `result` with the caught error; returns the
final `result` (`null` when neither failed).  The trace records both issued
deletes.  Note that the Azure adapter's delete promise always resolves (its
errors go to a discarded no-op callback), so the first `catch` can never
fire. -/
def deleteFiles (cfg : Config) (w : World) (filePaths : List String)
    (containerName bucketName : Option String) : JsValue × List AdapterCall :=
  let cn := resolveContainerName cfg containerName
  let bn := resolveBucketName cfg containerName bucketName
  let azurePromise := AzureBlobStorageClient.deleteFiles w filePaths cn
  let awsPromise := AwsS3Client.deleteFiles w filePaths bn
  let result : JsValue := .null
  let result :=
    match azurePromise with
    | .error e => JsValue.errVal e
    | .ok _ => result
  let result :=
    match awsPromise with
    | .error e => JsValue.errVal e
    | .ok _ => result
  (result, [.azureDeleteFiles filePaths cn, .awsDeleteFiles filePaths bn])

/-- `MultiStorageClient.deleteFile`: wraps `deleteFiles` for the singleton
list. -/
def deleteFile (cfg : Config) (w : World) (filePath : String)
    (containerName bucketName : Option String) : JsValue × List AdapterCall :=
  deleteFiles cfg w [filePath] containerName bucketName

end MultiStorageClient

/-- The boolean the Azure presence probe resolves with in world `w` for
container `cn` and blob `p` (projection of `AzureBlobStorageClient.fileExists`). -/
def azureProbeResult (w : World) (cn p : String) : Bool :=
  match w.azureGetBlobProperties cn p with
  | .err _ => false
  | .status isSuccessful => isSuccessful

/-- The boolean the AWS presence probe resolves with in world `w` for bucket
`bn` and key `p` (projection of `AwsS3Client.fileExists`). -/
def awsProbeResult (w : World) (bn p : String) : Bool :=
  match w.awsHeadObject bn p with
  | .err e => if e.code = ERROR_CODE_NOT_FOUND then false else true
  | .ok => true

/-- The bit-set `storagesContainingFile` folds its two probe booleans into,
expressed over already-resolved scope names. -/
def locationSet (w : World) (cn bn p : String) : Nat :=
  let result := StorageType.Undefined
  let result := if azureProbeResult w cn p then result ||| StorageType.AzureBlobStorage else result
  if awsProbeResult w bn p then result ||| StorageType.AwsS3 else result

/-- A benign baseline world: no object present anywhere, all listings empty,
all uploads, downloads and deletes succeed. -/
def defaultWorld : World where
  azureGetBlobProperties := fun _ _ => .err ERROR_CODE_NOT_FOUND
  awsHeadObject := fun _ _ => .err { code := ERROR_CODE_NOT_FOUND }
  azureListBlobNames := fun _ _ => .ok []
  awsListObjectKeys := fun _ _ => .ok []
  awsGetObject := fun _ _ => .error (.error "NoSuchKey")
  azureGetBlobToLocalFile := fun _ _ _ => .ok ()
  awsGetObjectToDisk := fun _ _ _ => .ok ()
  azureCreateBlockBlobFromLocalFile := fun _ _ _ => .ok ()
  awsUpload := fun _ _ _ => .ok ()
  azureDeleteBlob := fun _ _ => .ok ()
  awsDeleteMany := fun _ _ => .ok ()

/-- A generic initialized configuration used for concrete evaluations. -/
def cfg0 : Config := { defaultContainerName := "container", defaultBucketName := "bucket" }

/-- World in which the object is present only in Azure Blob Storage and the
S3 GET would fail; all other operations succeed. -/
def wAzureOnly : World :=
  { defaultWorld with azureGetBlobProperties := fun _ _ => .status true }

/-- World in which the object is present only in AWS S3, whose GET returns
the payload bytes. -/
def wAwsOnly : World :=
  { defaultWorld with
      awsHeadObject := fun _ _ => .ok
      awsGetObject := fun _ _ => .ok "s3-bytes" }

/-- World in which the object is present in both backends. -/
def wBoth : World :=
  { defaultWorld with
      azureGetBlobProperties := fun _ _ => .status true
      awsHeadObject := fun _ _ => .ok
      awsGetObject := fun _ _ => .ok "s3-bytes" }

/-- World in which the Azure presence probe hits a transport error while the
object is confirmed absent from S3. -/
def wProbeFault : World :=
  { defaultWorld with azureGetBlobProperties := fun _ _ => .err "ECONNREFUSED" }

/-- World in which the Azure listing is empty while S3 holds one object. -/
def wListDrop : World :=
  { defaultWorld with awsListObjectKeys := fun _ _ => .ok ["s3-only.txt"] }

/-- World in which the Azure listing succeeds but the S3 listing rejects. -/
def wListAwsDown : World :=
  { defaultWorld with
      azureListBlobNames := fun _ _ => .ok ["azure.txt"]
      awsListObjectKeys := fun _ _ => .error (.error "S3 listing failed") }

/-- World in which the S3 upload fails while the Azure upload succeeds. -/
def wUploadAwsFails : World :=
  { defaultWorld with awsUpload := fun _ _ _ => .error (.error "S3 upload failed") }

/-- World in which every individual Azure `deleteBlob` fails and the S3 bulk
delete rejects. -/
def wDeleteBothFail : World :=
  { defaultWorld with
      azureDeleteBlob := fun _ _ => .error (.error "Azure delete failed")
      awsDeleteMany := fun _ _ => .error (.error "S3 delete failed") }

/-- World in which every individual Azure `deleteBlob` fails while the S3
bulk delete succeeds. -/
def wDeleteAzureFails : World :=
  { defaultWorld with azureDeleteBlob := fun _ _ => .error (.error "Azure delete failed") }

/-- Configuration with an empty Azure default container name and a non-empty
AWS default bucket name. -/
def cfgEmptyAzureDefault : Config :=
  { defaultContainerName := "", defaultBucketName := "shared" }

/-- World in which Azure holds the blob `f.txt` in the container named
`shared` and in no other container; S3 holds nothing. -/
def wSharedScope : World :=
  { defaultWorld with
      azureGetBlobProperties := fun cn p =>
        if cn = "shared" ∧ p = "f.txt" then .status true else .err ERROR_CODE_NOT_FOUND }

/-- `storagesContainingFile` always resolves, with the bit-set computed by
`locationSet` over the resolved scope names. -/
theorem storagesContainingFile_eq (cfg : Config) (w : World) (p : String)
    (cn bn : Option String) :
    MultiStorageClient.storagesContainingFile cfg w p cn bn =
      .ok (locationSet w (resolveContainerName cfg cn) (resolveBucketName cfg cn bn) p) := rfl

/-- The Azure bit of the location set is exactly the Azure probe boolean. -/
theorem locationSet_azure_bit (w : World) (cn bn p : String) :
    locationSet w cn bn p &&& StorageType.AzureBlobStorage ≠ 0 ↔
      azureProbeResult w cn p = true := by
  unfold locationSet
  cases hA : azureProbeResult w cn p <;> cases hB : awsProbeResult w bn p <;>
    simp [StorageType.Undefined, StorageType.AzureBlobStorage, StorageType.AwsS3]

/-- The AWS bit of the location set is exactly the AWS probe boolean. -/
theorem locationSet_aws_bit (w : World) (cn bn p : String) :
    locationSet w cn bn p &&& StorageType.AwsS3 ≠ 0 ↔
      awsProbeResult w bn p = true := by
  unfold locationSet
  cases hA : azureProbeResult w cn p <;> cases hB : awsProbeResult w bn p <;>
    simp [StorageType.Undefined, StorageType.AzureBlobStorage, StorageType.AwsS3]

/-- The location set as a sum of the two presence bits. -/
theorem locationSet_val (w : World) (cn bn p : String) :
    locationSet w cn bn p =
      (if azureProbeResult w cn p then 1 else 0) +
      (if awsProbeResult w bn p then 2 else 0) := by
  unfold locationSet
  cases hA : azureProbeResult w cn p <;> cases hB : awsProbeResult w bn p <;>
    simp [StorageType.Undefined, StorageType.AzureBlobStorage, StorageType.AwsS3]

/-- Claim C1 (counterexample): with the Azure presence probe failing on a
transport error (`ECONNREFUSED`, not the distinguished not-found condition)
and the object absent from S3, `storagesContainingFile` does not fail: it
resolves with the empty Location Set, reporting the unreachable backend as
silent absence. -/
theorem storagesContainingFile_probe_fault_silent_absence :
    wProbeFault.azureGetBlobProperties "container" "f.txt" = .err "ECONNREFUSED" ∧
    "ECONNREFUSED" ≠ ERROR_CODE_NOT_FOUND ∧
    MultiStorageClient.storagesContainingFile cfg0 wProbeFault "f.txt" none none =
      .ok StorageType.Undefined :=
  ⟨rfl, by decide, rfl⟩

/-- Claim C1 (amended): `storagesContainingFile` never fails on a probe
error: it always resolves with a Location Set in which the Azure backend is
reported present exactly when its probe returned a successful status (any
Azure probe error reads as absence), and the AWS backend is reported present
exactly when its probe did not fail with the not-found code (any other AWS
probe error reads as presence). -/
theorem storagesContainingFile_total_characterization (cfg : Config) (w : World)
    (p : String) (cn bn : Option String) :
    ∃ s, MultiStorageClient.storagesContainingFile cfg w p cn bn = .ok s ∧
      ((s &&& StorageType.AzureBlobStorage ≠ 0) ↔
        w.azureGetBlobProperties (resolveContainerName cfg cn) p = .status true) ∧
      ((s &&& StorageType.AwsS3 ≠ 0) ↔
        ∀ e, w.awsHeadObject (resolveBucketName cfg cn bn) p = .err e →
          e.code ≠ ERROR_CODE_NOT_FOUND) := by
  refine ⟨_, storagesContainingFile_eq cfg w p cn bn, ?_, ?_⟩
  · rw [locationSet_azure_bit]
    unfold azureProbeResult
    cases h : w.azureGetBlobProperties (resolveContainerName cfg cn) p <;> simp
  · rw [locationSet_aws_bit]
    unfold awsProbeResult
    cases h : w.awsHeadObject (resolveBucketName cfg cn bn) p with
    | err e => by_cases hc : e.code = ERROR_CODE_NOT_FOUND <;> simp [hc]
    | ok => simp

/-- Claim C9: `fileExists` resolves `true` exactly when
`storagesContainingFile` with the same arguments resolves with a Location
Set different from `StorageType.Undefined`. -/
theorem fileExists_iff_locate_nonempty (cfg : Config) (w : World) (p : String)
    (cn bn : Option String) :
    MultiStorageClient.fileExists cfg w p cn bn = .ok true ↔
      ∃ s, MultiStorageClient.storagesContainingFile cfg w p cn bn = .ok s ∧
        s ≠ StorageType.Undefined := by
  unfold MultiStorageClient.fileExists
  rw [storagesContainingFile_eq]
  simp

/-- Claim C10: on a freshly constructed, never-initialized
`MultiStorageClient` both adapter fields are `null`, so `isInitialized`
raises a `TypeError` instead of returning a boolean; and each adapter's own
`isInitialized` compares its client field (initialized to `null`) against
`undefined`, so an uninitialized adapter reports itself as initialized. -/
theorem isInitialized_fresh_client :
    MultiStorageClient.isInitialized .jsNull .jsNull =
      .error (.typeError "Cannot read property of null") ∧
    AzureBlobStorageClient.isInitialized .jsNull = true ∧
    AwsS3Client.isInitialized .jsNull = true :=
  ⟨rfl, rfl, rfl⟩

/-- Unfolded form of `downloadFile` over the location set. -/
theorem downloadFile_eq (cfg : Config) (w : World) (p : String) (cn bn : Option String) :
    MultiStorageClient.downloadFile cfg w p cn bn =
      .ok (if locationSet w (resolveContainerName cfg cn) (resolveBucketName cfg cn bn) p =
             StorageType.Undefined then
             .strVal ERROR_CODE_NOT_FOUND
           else if locationSet w (resolveContainerName cfg cn) (resolveBucketName cfg cn bn) p &&&
             StorageType.AzureBlobStorage ≠ 0 then
             .errVal (.error "Method not implemented")
           else if locationSet w (resolveContainerName cfg cn) (resolveBucketName cfg cn bn) p &&&
             StorageType.AwsS3 ≠ 0 then
             match w.awsGetObject (resolveBucketName cfg cn bn) p with
             | .ok q => JsValue.payload q
             | .error e => .errVal e
           else .null) := rfl

/-- Claim C2 (counterexample): on a path present only in Azure Blob Storage,
`locate` reports the Azure backend, yet `downloadFile` does not return the
object payload: the Azure adapter's `downloadFile` is
`throw new Error("Method not implemented")`, so the call resolves with that
caught error value. -/
theorem downloadFile_azure_branch_not_implemented :
    MultiStorageClient.storagesContainingFile cfg0 wAzureOnly "f.txt" none none =
      .ok StorageType.AzureBlobStorage ∧
    MultiStorageClient.downloadFile cfg0 wAzureOnly "f.txt" none none =
      .ok (.errVal (.error "Method not implemented")) :=
  ⟨rfl, rfl⟩

/-- Claim C2 (amended): `downloadFile` resolves `locate` first and returns
`ERROR_CODE_NOT_FOUND` when no backend holds the path.  It prefers Azure
before AWS when choosing which backend to read, but whenever the Azure bit
is set the chosen Azure read is the unimplemented adapter method, so the
call returns the caught "Method not implemented" error instead of a
payload; only when the path is held solely by AWS S3 does it return the S3
object payload. -/
theorem downloadFile_resolution (cfg : Config) (w : World) (p : String)
    (cn bn : Option String) :
    (MultiStorageClient.storagesContainingFile cfg w p cn bn = .ok StorageType.Undefined →
      MultiStorageClient.downloadFile cfg w p cn bn = .ok (.strVal ERROR_CODE_NOT_FOUND)) ∧
    (∀ s, MultiStorageClient.storagesContainingFile cfg w p cn bn = .ok s →
      s &&& StorageType.AzureBlobStorage ≠ 0 →
      MultiStorageClient.downloadFile cfg w p cn bn =
        .ok (.errVal (.error "Method not implemented"))) ∧
    (∀ q, MultiStorageClient.storagesContainingFile cfg w p cn bn = .ok StorageType.AwsS3 →
      w.awsGetObject (resolveBucketName cfg cn bn) p = .ok q →
      MultiStorageClient.downloadFile cfg w p cn bn = .ok (.payload q)) := by
  refine ⟨?_, ?_, ?_⟩
  · intro h
    rw [storagesContainingFile_eq] at h
    have h0 := Except.ok.inj h
    rw [downloadFile_eq, h0]
    simp
  · intro s hs hbit
    rw [storagesContainingFile_eq] at hs
    have hsL := Except.ok.inj hs
    rw [← hsL] at hbit
    have hne : ¬(locationSet w (resolveContainerName cfg cn)
        (resolveBucketName cfg cn bn) p = StorageType.Undefined) := by
      intro h0
      rw [h0] at hbit
      exact hbit rfl
    rw [downloadFile_eq, if_neg hne, if_pos hbit]
  · intro q hs hq
    rw [storagesContainingFile_eq] at hs
    have hsL := Except.ok.inj hs
    rw [downloadFile_eq, hsL, hq]
    simp [StorageType.AwsS3, StorageType.Undefined, StorageType.AzureBlobStorage]

/-- Witness for claim C2 (amended): on the empty world the call returns
`ERROR_CODE_NOT_FOUND`, and on a world holding the object only in S3 it
returns the S3 payload. -/
theorem downloadFile_resolution_witness :
    MultiStorageClient.downloadFile cfg0 defaultWorld "f.txt" none none =
      .ok (.strVal ERROR_CODE_NOT_FOUND) ∧
    MultiStorageClient.downloadFile cfg0 wAwsOnly "f.txt" none none =
      .ok (.payload "s3-bytes") :=
  ⟨(downloadFile_resolution cfg0 defaultWorld "f.txt" none none).1 rfl,
   (downloadFile_resolution cfg0 wAwsOnly "f.txt" none none).2.2 "s3-bytes" rfl rfl⟩

/-- Claim C3 (failing input): with the Azure listing empty and the S3
listing returning `["s3-only.txt"]`, `listFileNamesWithPrefix` resolves with
the empty list — the S3 contribution is discarded because the result of
`fileNames.concat(...)` is never used; and when the S3 listing rejects
(Azure listing succeeding), the whole call rejects instead of succeeding
with Azure's names, because only the Azure listing is inside a `try`. -/
theorem listFileNames_dropped_contribution :
    MultiStorageClient.listFileNamesWithPrefix cfg0 wListDrop "" none none = .ok [] ∧
    wListDrop.awsListObjectKeys "bucket" "" = .ok ["s3-only.txt"] ∧
    MultiStorageClient.listFileNamesWithPrefix cfg0 wListAwsDown "" none none =
      .error (.error "S3 listing failed") ∧
    wListAwsDown.azureListBlobNames "container" "" = .ok ["azure.txt"] :=
  ⟨rfl, rfl, rfl, rfl⟩

/-- Claim C7: on a path whose Azure probe reports the blob absent and whose
AWS probe fails with the distinguished not-found code, `locate` resolves
with the empty Location Set, `fileExists` with `false`, and all three
download entry points resolve with `ERROR_CODE_NOT_FOUND` while attempting
no backend download or upload (empty call trace), so no local destination
file is created. -/
theorem absent_path_outcomes (cfg : Config) (w : World) (p lf : String)
    (cn bn : Option String)
    (hA : w.azureGetBlobProperties (resolveContainerName cfg cn) p =
      .err ERROR_CODE_NOT_FOUND)
    (hB : w.awsHeadObject (resolveBucketName cfg cn bn) p =
      .err { code := ERROR_CODE_NOT_FOUND }) :
    MultiStorageClient.storagesContainingFile cfg w p cn bn = .ok StorageType.Undefined ∧
    MultiStorageClient.fileExists cfg w p cn bn = .ok false ∧
    MultiStorageClient.downloadFile cfg w p cn bn = .ok (.strVal ERROR_CODE_NOT_FOUND) ∧
    MultiStorageClient.downloadFileToDisk cfg w p lf cn bn =
      .ok (.strVal ERROR_CODE_NOT_FOUND, []) ∧
    MultiStorageClient.downloadFileToDiskAndReplicateIfNecessary cfg w p lf cn bn =
      .ok (.strVal ERROR_CODE_NOT_FOUND, []) := by
  have hA' : azureProbeResult w (resolveContainerName cfg cn) p = false := by
    unfold azureProbeResult
    rw [hA]
  have hB' : awsProbeResult w (resolveBucketName cfg cn bn) p = false := by
    unfold awsProbeResult
    rw [hB]
    simp
  have hloc : locationSet w (resolveContainerName cfg cn)
      (resolveBucketName cfg cn bn) p = StorageType.Undefined := by
    rw [locationSet_val, hA', hB']
    rfl
  refine ⟨?_, ?_, ?_, ?_, ?_⟩
  · rw [storagesContainingFile_eq, hloc]
  · unfold MultiStorageClient.fileExists
    rw [storagesContainingFile_eq, hloc]
    rfl
  · rw [downloadFile_eq, hloc]
    simp
  · unfold MultiStorageClient.downloadFileToDisk
    rw [storagesContainingFile_eq, hloc]
    simp
  · unfold MultiStorageClient.downloadFileToDiskAndReplicateIfNecessary
    rw [storagesContainingFile_eq, hloc]
    simp

/-- Witness for claim C7: concrete evaluation on the empty world. -/
theorem absent_path_outcomes_witness :
    MultiStorageClient.fileExists cfg0 defaultWorld "missing.txt" none none = .ok false ∧
    MultiStorageClient.downloadFileToDiskAndReplicateIfNecessary cfg0 defaultWorld
      "missing.txt" "/tmp/missing.txt" none none = .ok (.strVal ERROR_CODE_NOT_FOUND, []) :=
  ⟨(absent_path_outcomes cfg0 defaultWorld "missing.txt" "/tmp/missing.txt" none none
      rfl rfl).2.1,
   (absent_path_outcomes cfg0 defaultWorld "missing.txt" "/tmp/missing.txt" none none
      rfl rfl).2.2.2.2⟩

/-- Claim C4: when exactly one backend holds the path,
`downloadFileToDiskAndReplicateIfNecessary` downloads from that backend to
the local destination and then uploads that same local file to the other
backend under the same storage path; when both backends hold it, the only
attempted backend operation is the download from the priority (Azure)
backend — no replication upload. -/
theorem replicateIfNecessary_branches (cfg : Config) (w : World) (p lf : String)
    (cn bn : Option String) :
    (MultiStorageClient.storagesContainingFile cfg w p cn bn =
        .ok StorageType.AzureBlobStorage →
      w.azureGetBlobToLocalFile (resolveContainerName cfg cn) p lf = .ok () →
      w.awsUpload (resolveBucketName cfg cn bn) p lf = .ok () →
      MultiStorageClient.downloadFileToDiskAndReplicateIfNecessary cfg w p lf cn bn =
        .ok (.null, [.azureDownloadFileToDisk p lf (resolveContainerName cfg cn),
                     .awsUploadFile lf p (resolveBucketName cfg cn bn)])) ∧
    (MultiStorageClient.storagesContainingFile cfg w p cn bn = .ok StorageType.AwsS3 →
      w.awsGetObjectToDisk (resolveBucketName cfg cn bn) p lf = .ok () →
      w.azureCreateBlockBlobFromLocalFile (resolveContainerName cfg cn) p lf = .ok () →
      MultiStorageClient.downloadFileToDiskAndReplicateIfNecessary cfg w p lf cn bn =
        .ok (.null, [.awsDownloadFileToDisk p lf (resolveBucketName cfg cn bn),
                     .azureUploadFile lf p (resolveContainerName cfg cn)])) ∧
    (MultiStorageClient.storagesContainingFile cfg w p cn bn = .ok StorageType.Both →
      ∃ r, MultiStorageClient.downloadFileToDiskAndReplicateIfNecessary cfg w p lf cn bn =
        .ok (r, [.azureDownloadFileToDisk p lf (resolveContainerName cfg cn)])) := by
  refine ⟨?_, ?_, ?_⟩
  · intro hs hd hu
    rw [storagesContainingFile_eq] at hs
    have hsL := Except.ok.inj hs
    simp [MultiStorageClient.downloadFileToDiskAndReplicateIfNecessary,
      storagesContainingFile_eq, hsL, AzureBlobStorageClient.downloadFileToDisk,
      AwsS3Client.uploadFile, hd, hu, StorageType.Undefined, StorageType.AzureBlobStorage,
      StorageType.AwsS3, StorageType.Both]
  · intro hs hd hu
    rw [storagesContainingFile_eq] at hs
    have hsL := Except.ok.inj hs
    simp [MultiStorageClient.downloadFileToDiskAndReplicateIfNecessary,
      storagesContainingFile_eq, hsL, AwsS3Client.downloadFileToDisk,
      AzureBlobStorageClient.uploadFile, hd, hu, StorageType.Undefined,
      StorageType.AzureBlobStorage, StorageType.AwsS3, StorageType.Both]
  · intro hs
    rw [storagesContainingFile_eq] at hs
    have hsL := Except.ok.inj hs
    cases hd : w.azureGetBlobToLocalFile (resolveContainerName cfg cn) p lf with
    | error e =>
      exact ⟨.errVal e, by
        simp [MultiStorageClient.downloadFileToDiskAndReplicateIfNecessary,
          storagesContainingFile_eq, hsL, AzureBlobStorageClient.downloadFileToDisk, hd,
          StorageType.Undefined, StorageType.AzureBlobStorage, StorageType.AwsS3,
          StorageType.Both]⟩
    | ok u =>
      exact ⟨.null, by
        simp [MultiStorageClient.downloadFileToDiskAndReplicateIfNecessary,
          storagesContainingFile_eq, hsL, AzureBlobStorageClient.downloadFileToDisk, hd,
          StorageType.Undefined, StorageType.AzureBlobStorage, StorageType.AwsS3,
          StorageType.Both]⟩

/-- Witness for claim C4: concrete runs on Azure-only, AWS-only and
both-backend worlds. -/
theorem replicateIfNecessary_branches_witness :
    MultiStorageClient.downloadFileToDiskAndReplicateIfNecessary cfg0 wAzureOnly
      "f.txt" "/tmp/f" none none =
      .ok (.null, [.azureDownloadFileToDisk "f.txt" "/tmp/f" "container",
                   .awsUploadFile "/tmp/f" "f.txt" "bucket"]) ∧
    MultiStorageClient.downloadFileToDiskAndReplicateIfNecessary cfg0 wAwsOnly
      "f.txt" "/tmp/f" none none =
      .ok (.null, [.awsDownloadFileToDisk "f.txt" "/tmp/f" "bucket",
                   .azureUploadFile "/tmp/f" "f.txt" "container"]) ∧
    Except.map (fun x => x.2)
      (MultiStorageClient.downloadFileToDiskAndReplicateIfNecessary cfg0 wBoth
        "f.txt" "/tmp/f" none none) =
      .ok [.azureDownloadFileToDisk "f.txt" "/tmp/f" "container"] := by
  refine ⟨(replicateIfNecessary_branches cfg0 wAzureOnly "f.txt" "/tmp/f" none none).1
      rfl rfl rfl,
    (replicateIfNecessary_branches cfg0 wAwsOnly "f.txt" "/tmp/f" none none).2.1
      rfl rfl rfl, ?_⟩
  obtain ⟨r, hr⟩ :=
    (replicateIfNecessary_branches cfg0 wBoth "f.txt" "/tmp/f" none none).2.2 rfl
  rw [hr]
  rfl

/-- Unfolded form of `uploadFileToStorage` as the sum of its two per-backend
success bits. -/
theorem uploadFileToStorage_eq (cfg : Config) (w : World) (lf sf : String)
    (stu : Option Nat) (cn bn : Option String) :
    MultiStorageClient.uploadFileToStorage cfg w lf sf stu cn bn =
      (if effectiveStorageToUse stu &&& StorageType.AzureBlobStorage ≠ 0 then
         match w.azureCreateBlockBlobFromLocalFile (resolveContainerName cfg cn) sf lf with
         | .ok _ => StorageType.AzureBlobStorage
         | .error _ => 0
       else 0) +
      (if effectiveStorageToUse stu &&& StorageType.AwsS3 ≠ 0 then
         match w.awsUpload (resolveBucketName cfg cn bn) sf lf with
         | .ok _ => StorageType.AwsS3
         | .error _ => 0
       else 0) := by
  cases hA : w.azureCreateBlockBlobFromLocalFile (resolveContainerName cfg cn) sf lf <;>
  cases hB : w.awsUpload (resolveBucketName cfg cn bn) sf lf <;>
    simp only [MultiStorageClient.uploadFileToStorage, AzureBlobStorageClient.uploadFile,
      AwsS3Client.uploadFile, hA, hB] <;>
    split_ifs <;> decide

/-- Claim C5: `uploadFileToStorage` never rejects; a targeted backend's bit
appears in the returned Location Set exactly when that backend was targeted
and its store succeeded — so each backend's failure is swallowed and only
the successful backends are reported; in particular a write targeted at
`Both` whose S3 store fails returns exactly the Azure bit. -/
theorem uploadFileToStorage_success_set (cfg : Config) (w : World) (lf sf : String)
    (stu : Option Nat) (cn bn : Option String) :
    (MultiStorageClient.uploadFileToStorage cfg w lf sf stu cn bn &&&
        StorageType.AzureBlobStorage ≠ 0 ↔
      (effectiveStorageToUse stu &&& StorageType.AzureBlobStorage ≠ 0 ∧
        w.azureCreateBlockBlobFromLocalFile (resolveContainerName cfg cn) sf lf = .ok ())) ∧
    (MultiStorageClient.uploadFileToStorage cfg w lf sf stu cn bn &&&
        StorageType.AwsS3 ≠ 0 ↔
      (effectiveStorageToUse stu &&& StorageType.AwsS3 ≠ 0 ∧
        w.awsUpload (resolveBucketName cfg cn bn) sf lf = .ok ())) ∧
    (∀ e, stu = some StorageType.Both →
      w.azureCreateBlockBlobFromLocalFile (resolveContainerName cfg cn) sf lf = .ok () →
      w.awsUpload (resolveBucketName cfg cn bn) sf lf = .error e →
      MultiStorageClient.uploadFileToStorage cfg w lf sf stu cn bn =
        StorageType.AzureBlobStorage) := by
  rw [uploadFileToStorage_eq]
  refine ⟨?_, ?_, ?_⟩
  · split_ifs with h1 h2 <;>
    cases hA : w.azureCreateBlockBlobFromLocalFile (resolveContainerName cfg cn) sf lf <;>
    cases hB : w.awsUpload (resolveBucketName cfg cn bn) sf lf <;>
      simp_all [StorageType.AzureBlobStorage, StorageType.AwsS3]
  · split_ifs with h1 h2 <;>
    cases hA : w.azureCreateBlockBlobFromLocalFile (resolveContainerName cfg cn) sf lf <;>
    cases hB : w.awsUpload (resolveBucketName cfg cn bn) sf lf <;>
      simp_all [StorageType.AzureBlobStorage, StorageType.AwsS3]
  · intro e hstu hA hB
    subst hstu
    simp [effectiveStorageToUse, hA, hB, StorageType.Both, StorageType.AzureBlobStorage,
      StorageType.AwsS3]

/-- Witness for claim C5: a write targeted at `Both` on a world where the S3
upload fails returns exactly the Azure bit. -/
theorem uploadFileToStorage_success_set_witness :
    MultiStorageClient.uploadFileToStorage cfg0 wUploadAwsFails "/tmp/f" "f.txt"
      (some StorageType.Both) none none = StorageType.AzureBlobStorage :=
  (uploadFileToStorage_success_set cfg0 wUploadAwsFails "/tmp/f" "f.txt"
    (some StorageType.Both) none none).2.2 (.error "S3 upload failed") rfl rfl rfl

/-- Claim C6 (failing input): `deleteFiles` does issue deletes against both
backends and captures the S3 failure, but an Azure delete failure is never
captured: the Azure adapter maps void-returning `deleteBlob` calls with a
discarded no-op callback under `Promise.all`, so its promise always
resolves, the coordinator's Azure `catch` is dead code, and a call whose
Azure deletes all fail (S3 succeeding) returns `null` instead of the
captured Azure error.  When both backends fail only the S3 error is
returned. -/
theorem deleteFiles_azure_failure_swallowed :
    wDeleteAzureFails.azureDeleteBlob "container" "a.txt" =
      .error (.error "Azure delete failed") ∧
    AzureBlobStorageClient.deleteFiles wDeleteAzureFails ["a.txt"] "container" = .ok () ∧
    MultiStorageClient.deleteFiles cfg0 wDeleteAzureFails ["a.txt"] none none =
      (.null, [.azureDeleteFiles ["a.txt"] "container",
               .awsDeleteFiles ["a.txt"] "bucket"]) ∧
    (MultiStorageClient.deleteFiles cfg0 wDeleteBothFail ["a.txt"] none none).1 =
      .errVal (.error "S3 delete failed") ∧
    (MultiStorageClient.deleteFiles cfg0 defaultWorld ["a.txt"] none none).1 = .null :=
  ⟨rfl, rfl, rfl, rfl, rfl⟩

/-- Claim C8 (counterexample): with the Azure default container name empty
and the AWS default bucket name `"shared"`, an omitted container argument
resolves to the empty string — not to the other backend's configured scope —
so a blob stored in Azure under the container named `shared` is not found by
`storagesContainingFile`, although the bucket side did resolve to `shared`. -/
theorem scope_resolution_container_no_bucket_fallback :
    cfgEmptyAzureDefault.defaultContainerName = "" ∧
    cfgEmptyAzureDefault.defaultBucketName = "shared" ∧
    resolveContainerName cfgEmptyAzureDefault none = "" ∧
    resolveBucketName cfgEmptyAzureDefault none none = "shared" ∧
    wSharedScope.azureGetBlobProperties "shared" "f.txt" = .status true ∧
    MultiStorageClient.storagesContainingFile cfgEmptyAzureDefault wSharedScope "f.txt"
      none none = .ok StorageType.Undefined :=
  ⟨rfl, rfl, rfl, rfl, by simp [wSharedScope, defaultWorld], rfl⟩

/-- Claim C8 (amended): an omitted or empty bucket-name argument falls back
to the AWS default bucket name and, when that is empty, to the resolved
container name; an omitted or empty container-name argument falls back only
to the Azure default container name, never to the bucket side. -/
theorem scope_resolution_chain (cfg : Config) (s : String) (cnArg : Option String) :
    resolveContainerName cfg none = cfg.defaultContainerName ∧
    resolveContainerName cfg (some s) = (if s = "" then cfg.defaultContainerName else s) ∧
    resolveBucketName cfg cnArg none =
      (if cfg.defaultBucketName = "" then resolveContainerName cfg cnArg
       else cfg.defaultBucketName) ∧
    resolveBucketName cfg cnArg (some s) =
      (if s = "" then
         (if cfg.defaultBucketName = "" then resolveContainerName cfg cnArg
          else cfg.defaultBucketName)
       else s) :=
  ⟨rfl, rfl, rfl, rfl⟩

end LazyStorageReplicator
